import Mathlib

/-!
Verification of the Cadastre-Parcels geometry utilities.

Shallow embedding of the TypeScript sources:
  - src/utils/geo-transform.ts : computeBbox, expandBbox, createGeoToPdfTransform
  - src/level4.ts              : computeBuiltArea and the derived statistics
    (unbuiltArea, occupancyRate) of generateLevel4

JavaScript numbers are modelled as exact rationals extended with the two
infinities and NaN (type JSNum below); rounding of finite arithmetic is
idealised as exact, while the IEEE-754 rules for infinities, NaN and
division by zero are kept, since several specified behaviours depend on
them.  Negative zero is identified with zero.  External library calls
(turf.intersect, turf.area, proj4) are parameters of the embedded
functions, since their code is not part of this repository.
-/

/-- Model of a JavaScript (IEEE-754 double) number: an exact rational,
one of the two infinities, or NaN. -/
inductive JSNum where
  | nan    : JSNum
  | posInf : JSNum
  | negInf : JSNum
  | fin    : ℚ → JSNum
deriving DecidableEq, Repr

namespace JSNum

/-- IEEE-754 subtraction on the model. -/
def sub : JSNum → JSNum → JSNum
  | nan, _ => nan
  | _, nan => nan
  | fin a, fin b => fin (a - b)
  | fin _, posInf => negInf
  | fin _, negInf => posInf
  | posInf, fin _ => posInf
  | negInf, fin _ => negInf
  | posInf, posInf => nan
  | posInf, negInf => posInf
  | negInf, posInf => negInf
  | negInf, negInf => nan

/-- IEEE-754 multiplication on the model (infinity times zero is NaN). -/
def mul : JSNum → JSNum → JSNum
  | nan, _ => nan
  | _, nan => nan
  | fin a, fin b => fin (a * b)
  | posInf, fin b => if b = 0 then nan else if 0 < b then posInf else negInf
  | negInf, fin b => if b = 0 then nan else if 0 < b then negInf else posInf
  | fin a, posInf => if a = 0 then nan else if 0 < a then posInf else negInf
  | fin a, negInf => if a = 0 then nan else if 0 < a then negInf else posInf
  | posInf, posInf => posInf
  | posInf, negInf => negInf
  | negInf, posInf => negInf
  | negInf, negInf => posInf

/-- IEEE-754 division on the model: a nonzero finite number divided by zero
gives a signed infinity, zero divided by zero gives NaN. -/
def div : JSNum → JSNum → JSNum
  | nan, _ => nan
  | _, nan => nan
  | fin a, fin b =>
      if b = 0 then (if a = 0 then nan else if 0 < a then posInf else negInf)
      else fin (a / b)
  | fin _, posInf => fin 0
  | fin _, negInf => fin 0
  | posInf, fin b => if 0 ≤ b then posInf else negInf
  | negInf, fin b => if 0 ≤ b then negInf else posInf
  | posInf, posInf => nan
  | posInf, negInf => nan
  | negInf, posInf => nan
  | negInf, negInf => nan

/-- Number.isFinite of the model. -/
def isFinite : JSNum → Bool
  | fin _ => true
  | _ => false

/-- The JavaScript comparison x <= y: false whenever either side is NaN. -/
def jsLe : JSNum → JSNum → Bool
  | nan, _ => false
  | _, nan => false
  | fin a, fin b => decide (a ≤ b)
  | fin _, posInf => true
  | fin _, negInf => false
  | posInf, fin _ => false
  | negInf, fin _ => true
  | posInf, posInf => true
  | posInf, negInf => false
  | negInf, posInf => true
  | negInf, negInf => true

end JSNum

/-- Math.min over a list of finite numbers: the empty spread gives positive
infinity, otherwise the minimum of the arguments. -/
def jsMin (l : List ℚ) : JSNum :=
  match l with
  | [] => .posInf
  | x :: xs => .fin (xs.foldl min x)

/-- Math.max over a list of finite numbers: the empty spread gives negative
infinity, otherwise the maximum of the arguments. -/
def jsMax (l : List ℚ) : JSNum :=
  match l with
  | [] => .negInf
  | x :: xs => .fin (xs.foldl max x)

/-- A bounding box [minLon, minLat, maxLon, maxLat] with components in α. -/
structure BBox4 (α : Type) where
  minLon : α
  minLat : α
  maxLon : α
  maxLat : α
deriving DecidableEq, Repr

/-- Embedding of computeBbox (src/utils/geo-transform.ts, lines 81-94):
flattens the MultiPolygon coordinates two levels deep and takes the
componentwise Math.min / Math.max of the longitudes and latitudes. -/
def computeBbox (coordinates : List (List (List (ℚ × ℚ)))) : BBox4 JSNum :=
  let allPoints := coordinates.flatten.flatten
  let lons := allPoints.map (fun p => p.1)
  let lats := allPoints.map (fun p => p.2)
  ⟨jsMin lons, jsMin lats, jsMax lons, jsMax lats⟩

/-- Embedding of expandBbox (src/utils/geo-transform.ts, lines 103-112),
over finite (rational) components. -/
def expandBbox (bbox : BBox4 ℚ) (marginPercent : ℚ) : BBox4 ℚ :=
  let dLon := (bbox.maxLon - bbox.minLon) * marginPercent
  let dLat := (bbox.maxLat - bbox.minLat) * marginPercent
  ⟨bbox.minLon - dLon, bbox.minLat - dLat, bbox.maxLon + dLon, bbox.maxLat + dLat⟩

/-- Box containment: outer contains inner, inclusive on all sides. -/
def bboxContains (outer inner : BBox4 ℚ) : Prop :=
  outer.minLon ≤ inner.minLon ∧ outer.minLat ≤ inner.minLat ∧
  inner.maxLon ≤ outer.maxLon ∧ inner.maxLat ≤ outer.maxLat

instance (outer inner : BBox4 ℚ) : Decidable (bboxContains outer inner) := by
  unfold bboxContains; infer_instance

/-- Embedding of the GeoToPdfTransform interface
(src/utils/geo-transform.ts, lines 36-41). -/
structure GeoToPdfTransform where
  toPixel : JSNum → JSNum → JSNum × JSNum
  bboxLambert : JSNum × JSNum × JSNum × JSNum

/-- Embedding of createGeoToPdfTransform (src/utils/geo-transform.ts,
lines 53-73).  The Lambert-93 projection wgs84ToLambert93 wraps the external
proj4 library, so it is taken as a parameter proj. -/
def createGeoToPdfTransform (proj : JSNum → JSNum → JSNum × JSNum)
    (geoBbox : BBox4 JSNum) (pageWidth pageHeight : JSNum) : GeoToPdfTransform :=
  let geoWidth := geoBbox.maxLon.sub geoBbox.minLon
  let geoHeight := geoBbox.maxLat.sub geoBbox.minLat
  { toPixel := fun lon lat =>
      (((lon.sub geoBbox.minLon).div geoWidth).mul pageWidth,
       ((lat.sub geoBbox.minLat).div geoHeight).mul pageHeight),
    bboxLambert :=
      ((proj geoBbox.minLon geoBbox.minLat).1,
       (proj geoBbox.minLon geoBbox.minLat).2,
       (proj geoBbox.maxLon geoBbox.maxLat).1,
       (proj geoBbox.maxLon geoBbox.maxLat).2) }

/-- Embedding of computeBuiltArea (src/level4.ts, lines 47-78).  The external
turf.intersect call is a parameter returning Except: an error models a throw
anywhere inside the try block (caught and skipped by the loop), ok none
models a null intersection, ok (some g) a non-empty intersection whose area
the external turf.area (parameter area) measures. -/
def computeBuiltArea {G : Type} (intersect : G → G → Except Unit (Option G))
    (area : G → ℚ) (parcelFeature : G) (buildings : List G) : ℚ × List G :=
  buildings.foldl (fun acc building =>
    match intersect parcelFeature building with
    | .error _ => acc
    | .ok none => acc
    | .ok (some g) => (acc.1 + area g, acc.2 ++ [g])) (0, [])

/-- The successful non-empty intersection of the parcel with one building,
if any: the per-building outcome that computeBuiltArea accumulates. -/
def succInter {G : Type} (intersect : G → G → Except Unit (Option G))
    (parcelFeature building : G) : Option G :=
  match intersect parcelFeature building with
  | .ok (some g) => some g
  | _ => none

/-- Embedding of the unbuiltArea computation of generateLevel4
(src/level4.ts, line 303). -/
def unbuiltArea (totalArea builtArea : ℚ) : ℚ :=
  max 0 (totalArea - builtArea)

/-- Embedding of the occupancyRate computation of generateLevel4
(src/level4.ts, line 304). -/
def occupancyRate (totalArea builtArea : ℚ) : ℚ :=
  if 0 < totalArea then builtArea / totalArea * 100 else 0

/-! ### Characterisation of computeBuiltArea -/

/-- The loop of computeBuiltArea, from an arbitrary accumulator: it adds the
areas of the successful non-empty intersections and appends those
intersections in building order. -/
theorem computeBuiltArea_loop {G : Type} (intersect : G → G → Except Unit (Option G))
    (area : G → ℚ) (parcelFeature : G) :
    ∀ (bs : List G) (a : ℚ) (l : List G),
      bs.foldl (fun acc building =>
        match intersect parcelFeature building with
        | .error _ => acc
        | .ok none => acc
        | .ok (some g) => (acc.1 + area g, acc.2 ++ [g])) (a, l) =
      (a + ((bs.filterMap (succInter intersect parcelFeature)).map area).sum,
       l ++ bs.filterMap (succInter intersect parcelFeature)) := by
  intro bs
  induction bs with
  | nil => intro a l; simp
  | cons b bs ih =>
    intro a l
    rw [List.foldl_cons, List.filterMap_cons]
    cases h : intersect parcelFeature b with
    | error e => simp [succInter, h, ih]
    | ok o =>
      cases o with
      | none => simp [succInter, h, ih]
      | some g => simp [succInter, h, ih, add_assoc]

/-- computeBuiltArea returns the sum of the areas of the successful non-empty
intersections together with the list of those intersections in order. -/
theorem computeBuiltArea_eq {G : Type} (intersect : G → G → Except Unit (Option G))
    (area : G → ℚ) (parcelFeature : G) (buildings : List G) :
    computeBuiltArea intersect area parcelFeature buildings =
      (((buildings.filterMap (succInter intersect parcelFeature)).map area).sum,
       buildings.filterMap (succInter intersect parcelFeature)) := by
  unfold computeBuiltArea
  rw [computeBuiltArea_loop]
  simp

/-- C1: computeBuiltArea returns builtArea equal to the unclamped sum of the
areas of the non-empty parcel-building intersections, one independent
pairwise intersection per building with no deduplication, and returns exactly
those intersection geometries in building order; an empty building sequence
or a parcel intersecting no building yields builtArea 0 and an empty list. -/
theorem computeBuiltArea_sum_and_list {G : Type}
    (intersect : G → G → Except Unit (Option G)) (area : G → ℚ)
    (parcelFeature : G) (buildings : List G) :
    computeBuiltArea intersect area parcelFeature buildings =
      (((buildings.filterMap (succInter intersect parcelFeature)).map area).sum,
       buildings.filterMap (succInter intersect parcelFeature)) ∧
    computeBuiltArea intersect area parcelFeature [] = (0, []) ∧
    ((∀ b ∈ buildings, succInter intersect parcelFeature b = none) →
      computeBuiltArea intersect area parcelFeature buildings = (0, [])) := by
  refine ⟨computeBuiltArea_eq .., rfl, fun h => ?_⟩
  rw [computeBuiltArea_eq]
  have : buildings.filterMap (succInter intersect parcelFeature) = [] := by
    simp only [List.filterMap_eq_nil_iff]
    exact h
  rw [this]
  simp

/-- Witness for C1: a parcel intersecting no building yields builtArea 0 and
an empty intersection list. -/
theorem computeBuiltArea_sum_and_list_witness :
    (∀ b ∈ ([1, 2] : List ℕ),
      succInter (fun _ _ => (.ok none : Except Unit (Option ℕ))) 0 b = none) ∧
    computeBuiltArea (fun _ _ => (.ok none : Except Unit (Option ℕ)))
      (fun _ => (0 : ℚ)) 0 [1, 2] = (0, []) :=
  ⟨by decide,
   (computeBuiltArea_sum_and_list (fun _ _ => .ok none) (fun _ => 0) 0 [1, 2]).2.2
     (by decide)⟩

/-- C2: a building whose intersection computation throws is skipped silently:
the result on any sequence containing it equals the result on the sequence
with that building removed, so it contributes no area, is absent from the
list, and the remaining buildings are processed unaffected. -/
theorem computeBuiltArea_skips_failing {G : Type}
    (intersect : G → G → Except Unit (Option G)) (area : G → ℚ)
    (parcelFeature : G) (l1 l2 : List G) (b : G) (e : Unit)
    (h : intersect parcelFeature b = .error e) :
    computeBuiltArea intersect area parcelFeature (l1 ++ b :: l2) =
      computeBuiltArea intersect area parcelFeature (l1 ++ l2) := by
  rw [computeBuiltArea_eq, computeBuiltArea_eq]
  simp [List.filterMap_append, List.filterMap_cons, succInter, h]

/-- Witness for C2: with a building (the value 0) whose intersection throws,
the result equals the result without that building. -/
theorem computeBuiltArea_skips_failing_witness :
    (fun _ x : ℕ => if x = 0 then (.error () : Except Unit (Option ℕ))
      else .ok (some x)) 5 0 = .error () ∧
    computeBuiltArea
      (fun _ x : ℕ => if x = 0 then (.error () : Except Unit (Option ℕ))
        else .ok (some x)) (fun x => (x : ℚ)) 5 ([1] ++ 0 :: [2]) =
    computeBuiltArea
      (fun _ x : ℕ => if x = 0 then (.error () : Except Unit (Option ℕ))
        else .ok (some x)) (fun x => (x : ℚ)) 5 ([1] ++ [2]) :=
  ⟨rfl,
   computeBuiltArea_skips_failing
     (fun _ x : ℕ => if x = 0 then .error () else .ok (some x))
     (fun x => (x : ℚ)) 5 [1] [2] 0 () rfl⟩

/-- C3: the derived statistics satisfy unbuiltArea = max(0, total - built),
occupancyRate = built / total * 100 when total > 0 and 0 when total ≤ 0 (no
division by zero performed); total 1000 with built 250 gives 750 and 25. -/
theorem stats_correct (totalArea builtArea : ℚ) :
    unbuiltArea totalArea builtArea = max 0 (totalArea - builtArea) ∧
    (0 < totalArea →
      occupancyRate totalArea builtArea = builtArea / totalArea * 100) ∧
    (totalArea ≤ 0 → occupancyRate totalArea builtArea = 0) ∧
    unbuiltArea 1000 250 = 750 ∧ occupancyRate 1000 250 = 25 := by
  refine ⟨rfl, fun h => ?_, fun h => ?_, by norm_num [unbuiltArea], ?_⟩
  · rw [occupancyRate, if_pos h]
  · rw [occupancyRate, if_neg (not_lt.mpr h)]
  · rw [occupancyRate, if_pos (by norm_num)]
    norm_num

/-- Witness for C3 at totalArea 1000, builtArea 250. -/
theorem stats_correct_witness :
    (0 : ℚ) < 1000 ∧ occupancyRate 1000 250 = 250 / 1000 * 100 :=
  ⟨by norm_num, (stats_correct 1000 250).2.1 (by norm_num)⟩

/-! ### Fold lemmas for Math.min / Math.max over a spread of arguments -/

/-- A left fold of min is a lower bound of the seed and every element. -/
theorem foldl_min_le_mem (xs : List ℚ) :
    ∀ (x y : ℚ), y ∈ x :: xs → xs.foldl min x ≤ y := by
  induction xs with
  | nil =>
    intro x y hy
    rw [List.mem_singleton] at hy
    simp [hy]
  | cons a as ih =>
    intro x y hy
    rw [List.foldl_cons]
    have hseed : as.foldl min (min x a) ≤ min x a :=
      ih (min x a) (min x a) (List.mem_cons_self _ _)
    rcases List.mem_cons.mp hy with h | h
    · exact le_trans hseed (by rw [h]; exact min_le_left x a)
    · rcases List.mem_cons.mp h with h2 | h2
      · exact le_trans hseed (by rw [h2]; exact min_le_right x a)
      · exact ih (min x a) y (List.mem_cons_of_mem _ h2)

/-- A left fold of min is attained: it is the seed or one of the elements. -/
theorem foldl_min_mem (xs : List ℚ) : ∀ x : ℚ, xs.foldl min x ∈ x :: xs := by
  induction xs with
  | nil => intro x; exact List.mem_singleton_self x
  | cons a as ih =>
    intro x
    rw [List.foldl_cons]
    rcases List.mem_cons.mp (ih (min x a)) with h | h
    · rcases min_choice x a with hx | hx
      · rw [h, hx]; exact List.mem_cons_self _ _
      · rw [h, hx]; exact List.mem_cons_of_mem _ (List.mem_cons_self _ _)
    · exact List.mem_cons_of_mem _ (List.mem_cons_of_mem _ h)

/-- A left fold of max is an upper bound of the seed and every element. -/
theorem le_foldl_max_mem (xs : List ℚ) :
    ∀ (x y : ℚ), y ∈ x :: xs → y ≤ xs.foldl max x := by
  induction xs with
  | nil =>
    intro x y hy
    rw [List.mem_singleton] at hy
    simp [hy]
  | cons a as ih =>
    intro x y hy
    rw [List.foldl_cons]
    have hseed : max x a ≤ as.foldl max (max x a) :=
      ih (max x a) (max x a) (List.mem_cons_self _ _)
    rcases List.mem_cons.mp hy with h | h
    · exact le_trans (by rw [h]; exact le_max_left x a) hseed
    · rcases List.mem_cons.mp h with h2 | h2
      · exact le_trans (by rw [h2]; exact le_max_right x a) hseed
      · exact ih (max x a) y (List.mem_cons_of_mem _ h2)

/-- A left fold of max is attained: it is the seed or one of the elements. -/
theorem foldl_max_mem (xs : List ℚ) : ∀ x : ℚ, xs.foldl max x ∈ x :: xs := by
  induction xs with
  | nil => intro x; exact List.mem_singleton_self x
  | cons a as ih =>
    intro x
    rw [List.foldl_cons]
    rcases List.mem_cons.mp (ih (max x a)) with h | h
    · rcases max_choice x a with hx | hx
      · rw [h, hx]; exact List.mem_cons_self _ _
      · rw [h, hx]; exact List.mem_cons_of_mem _ (List.mem_cons_self _ _)
    · exact List.mem_cons_of_mem _ (List.mem_cons_of_mem _ h)

/-- C4: for non-empty nested coordinate input, computeBbox returns finite
components that are exactly the componentwise minima and maxima of the
flattened point set (each bound is attained by some input point and bounds
every input point), hence minLon ≤ maxLon and minLat ≤ maxLat and every
input point lies within the box inclusively; input whose points are all
identical yields a zero-width, zero-height box. -/
theorem computeBbox_nonempty (coordinates : List (List (List (ℚ × ℚ))))
    (hne : coordinates.flatten.flatten ≠ []) :
    ∃ a b c d : ℚ,
      computeBbox coordinates = ⟨.fin a, .fin b, .fin c, .fin d⟩ ∧
      a ∈ coordinates.flatten.flatten.map (fun p => p.1) ∧
      b ∈ coordinates.flatten.flatten.map (fun p => p.2) ∧
      c ∈ coordinates.flatten.flatten.map (fun p => p.1) ∧
      d ∈ coordinates.flatten.flatten.map (fun p => p.2) ∧
      (∀ p ∈ coordinates.flatten.flatten,
        a ≤ p.1 ∧ p.1 ≤ c ∧ b ≤ p.2 ∧ p.2 ≤ d) ∧
      a ≤ c ∧ b ≤ d ∧
      (∀ x y : ℚ, (∀ p ∈ coordinates.flatten.flatten, p = (x, y)) →
        computeBbox coordinates = ⟨.fin x, .fin y, .fin x, .fin y⟩) := by
  obtain ⟨p, ps, hf⟩ := List.exists_cons_of_ne_nil hne
  have hlons : coordinates.flatten.flatten.map (fun q => q.1) =
      p.1 :: ps.map (fun q => q.1) := by rw [hf, List.map_cons]
  have hlats : coordinates.flatten.flatten.map (fun q => q.2) =
      p.2 :: ps.map (fun q => q.2) := by rw [hf, List.map_cons]
  have hbb : computeBbox coordinates =
      ⟨.fin ((ps.map (fun q => q.1)).foldl min p.1),
       .fin ((ps.map (fun q => q.2)).foldl min p.2),
       .fin ((ps.map (fun q => q.1)).foldl max p.1),
       .fin ((ps.map (fun q => q.2)).foldl max p.2)⟩ := by
    simp only [computeBbox, hlons, hlats, jsMin, jsMax]
  refine ⟨(ps.map (fun q => q.1)).foldl min p.1,
          (ps.map (fun q => q.2)).foldl min p.2,
          (ps.map (fun q => q.1)).foldl max p.1,
          (ps.map (fun q => q.2)).foldl max p.2,
          hbb, ?_, ?_, ?_, ?_, ?_, ?_, ?_, ?_⟩
  · rw [hlons]; exact foldl_min_mem _ _
  · rw [hlats]; exact foldl_min_mem _ _
  · rw [hlons]; exact foldl_max_mem _ _
  · rw [hlats]; exact foldl_max_mem _ _
  · intro q hq
    have h1 : q.1 ∈ p.1 :: ps.map (fun r => r.1) := by
      rw [← hlons]; exact List.mem_map_of_mem _ hq
    have h2 : q.2 ∈ p.2 :: ps.map (fun r => r.2) := by
      rw [← hlats]; exact List.mem_map_of_mem _ hq
    exact ⟨foldl_min_le_mem _ _ _ h1, le_foldl_max_mem _ _ _ h1,
           foldl_min_le_mem _ _ _ h2, le_foldl_max_mem _ _ _ h2⟩
  · exact le_foldl_max_mem _ _ _ (foldl_min_mem _ _)
  · exact le_foldl_max_mem _ _ _ (foldl_min_mem _ _)
  · intro x y hxy
    have hall1 : ∀ q ∈ p.1 :: ps.map (fun r => r.1), q = x := by
      intro q hq
      rw [← hlons] at hq
      obtain ⟨r, hr, hq2⟩ := List.mem_map.mp hq
      rw [← hq2, hxy r hr]
    have hall2 : ∀ q ∈ p.2 :: ps.map (fun r => r.2), q = y := by
      intro q hq
      rw [← hlats] at hq
      obtain ⟨r, hr, hq2⟩ := List.mem_map.mp hq
      rw [← hq2, hxy r hr]
    rw [hbb, hall1 _ (foldl_min_mem _ _), hall2 _ (foldl_min_mem _ _),
        hall1 _ (foldl_max_mem _ _), hall2 _ (foldl_max_mem _ _)]

/-- Witness for C4 on the concrete input [[[(1,2),(3,0)]]]. -/
theorem computeBbox_nonempty_witness :
    (([[[((1 : ℚ), (2 : ℚ)), (3, 0)]]] :
        List (List (List (ℚ × ℚ)))).flatten.flatten ≠ []) ∧
    ∃ a b c d : ℚ,
      computeBbox [[[((1 : ℚ), (2 : ℚ)), (3, 0)]]] =
        ⟨.fin a, .fin b, .fin c, .fin d⟩ :=
  ⟨by decide, by
    obtain ⟨a, b, c, d, h, _⟩ :=
      computeBbox_nonempty [[[((1 : ℚ), (2 : ℚ)), (3, 0)]]] (by decide)
    exact ⟨a, b, c, d, h⟩⟩

/-- C10: on empty coordinate input computeBbox raises no error and returns
no NaN component: it returns exactly [posInf, posInf, negInf, negInf], an
inverted box for which minLon ≤ maxLon and minLat ≤ maxLat both fail under
the JavaScript comparison. -/
theorem computeBbox_empty (coordinates : List (List (List (ℚ × ℚ))))
    (h : coordinates.flatten.flatten = []) :
    computeBbox coordinates = ⟨.posInf, .posInf, .negInf, .negInf⟩ ∧
    (computeBbox coordinates).minLon ≠ .nan ∧
    (computeBbox coordinates).minLat ≠ .nan ∧
    (computeBbox coordinates).maxLon ≠ .nan ∧
    (computeBbox coordinates).maxLat ≠ .nan ∧
    JSNum.jsLe (computeBbox coordinates).minLon (computeBbox coordinates).maxLon
      = false ∧
    JSNum.jsLe (computeBbox coordinates).minLat (computeBbox coordinates).maxLat
      = false := by
  have hbb : computeBbox coordinates = ⟨.posInf, .posInf, .negInf, .negInf⟩ := by
    simp only [computeBbox, h, List.map_nil, jsMin, jsMax]
  rw [hbb]
  exact ⟨rfl, by decide, by decide, by decide, by decide, rfl, rfl⟩

/-- Witness for C10 on the literally empty coordinate array. -/
theorem computeBbox_empty_witness :
    (([] : List (List (List (ℚ × ℚ)))).flatten.flatten = []) ∧
    computeBbox ([] : List (List (List (ℚ × ℚ)))) =
      ⟨.posInf, .posInf, .negInf, .negInf⟩ :=
  ⟨rfl, (computeBbox_empty [] rfl).1⟩

/-! ### The geographic to PDF transform -/

/-- Multiplying a non-finite number by a finite one never yields a finite
number. -/
theorem JSNum.mul_fin_not_finite (x : JSNum) (hx : x.isFinite = false) (w : ℚ) :
    (x.mul (.fin w)).isFinite = false := by
  cases x with
  | nan => rfl
  | posInf => simp only [mul]; split_ifs <;> rfl
  | negInf => simp only [mul]; split_ifs <;> rfl
  | fin q => simp [isFinite] at hx

/-- Dividing a finite number by zero never yields a finite number. -/
theorem JSNum.div_fin_zero_not_finite (q : ℚ) :
    ((JSNum.fin q).div (.fin 0)).isFinite = false := by
  simp only [div, if_pos rfl]
  split_ifs <;> rfl

/-- C5: for a bbox with nonzero width and height, toPixel scales each axis
independently and linearly: toPixel(lon, lat) =
((lon - minLon) / geoWidth * pageWidth, (lat - minLat) / geoHeight *
pageHeight); in particular the (minLon, minLat) corner maps to (0, 0) and
the (maxLon, maxLat) corner maps to (pageWidth, pageHeight). -/
theorem toPixel_linear (proj : JSNum → JSNum → JSNum × JSNum)
    (a b c d w h lon lat : ℚ) (hw : c - a ≠ 0) (hh : d - b ≠ 0) :
    (createGeoToPdfTransform proj ⟨.fin a, .fin b, .fin c, .fin d⟩
        (.fin w) (.fin h)).toPixel (.fin lon) (.fin lat) =
      (.fin ((lon - a) / (c - a) * w), .fin ((lat - b) / (d - b) * h)) ∧
    (createGeoToPdfTransform proj ⟨.fin a, .fin b, .fin c, .fin d⟩
        (.fin w) (.fin h)).toPixel (.fin a) (.fin b) = (.fin 0, .fin 0) ∧
    (createGeoToPdfTransform proj ⟨.fin a, .fin b, .fin c, .fin d⟩
        (.fin w) (.fin h)).toPixel (.fin c) (.fin d) = (.fin w, .fin h) := by
  refine ⟨?_, ?_, ?_⟩ <;>
    simp [createGeoToPdfTransform, JSNum.sub, JSNum.div, JSNum.mul, hw, hh,
      div_self hw, div_self hh]

/-- Witness for C5: bbox [0,0,20,10] with page 800 by 400 maps (10,5) to
(400,200). -/
theorem toPixel_linear_witness :
    ((20 : ℚ) - 0 ≠ 0) ∧ ((10 : ℚ) - 0 ≠ 0) ∧
    (createGeoToPdfTransform (fun _ _ => (.nan, .nan))
        ⟨.fin 0, .fin 0, .fin 20, .fin 10⟩ (.fin 800) (.fin 400)).toPixel
      (.fin 10) (.fin 5) = (.fin 400, .fin 200) := by
  refine ⟨by norm_num, by norm_num, ?_⟩
  have h := (toPixel_linear (fun _ _ => (.nan, .nan)) 0 0 20 10 800 400 10 5
    (by norm_num) (by norm_num)).1
  rw [h]
  norm_num

/-- C8: a zero-width or zero-height bbox is not validated: the transform is
still constructed and toPixel divides by zero, so on the degenerate axis the
pixel coordinate is non-finite (infinite or NaN) for every finite input, and
no error is raised anywhere. -/
theorem toPixel_degenerate (proj : JSNum → JSNum → JSNum × JSNum)
    (a b c d w h lon lat : ℚ) :
    (c = a →
      (((createGeoToPdfTransform proj ⟨.fin a, .fin b, .fin c, .fin d⟩
          (.fin w) (.fin h)).toPixel (.fin lon) (.fin lat)).1).isFinite
        = false) ∧
    (d = b →
      (((createGeoToPdfTransform proj ⟨.fin a, .fin b, .fin c, .fin d⟩
          (.fin w) (.fin h)).toPixel (.fin lon) (.fin lat)).2).isFinite
        = false) := by
  constructor
  · intro hc
    subst hc
    simp only [createGeoToPdfTransform, JSNum.sub, sub_self]
    exact JSNum.mul_fin_not_finite _ (JSNum.div_fin_zero_not_finite _) w
  · intro hd
    subst hd
    simp only [createGeoToPdfTransform, JSNum.sub, sub_self]
    exact JSNum.mul_fin_not_finite _ (JSNum.div_fin_zero_not_finite _) h

/-- Witness for C8 at the point bbox [3,4,3,4] with page 100 by 100 and
input (5,6): both pixel coordinates are non-finite. -/
theorem toPixel_degenerate_witness :
    ((3 : ℚ) = 3) ∧
    (((createGeoToPdfTransform (fun _ _ => (.nan, .nan))
        ⟨.fin 3, .fin 4, .fin 3, .fin 4⟩ (.fin 100) (.fin 100)).toPixel
      (.fin 5) (.fin 6)).1).isFinite = false :=
  ⟨rfl,
   (toPixel_degenerate (fun _ _ => (.nan, .nan)) 3 4 3 4 100 100 5 6).1 rfl⟩

/-- C9: bboxLambert is the projection of the (minLon, minLat) corner
concatenated with the projection of the (maxLon, maxLat) corner, the
projection being applied to each corner independently. -/
theorem bboxLambert_corners (proj : JSNum → JSNum → JSNum × JSNum)
    (geoBbox : BBox4 JSNum) (pageWidth pageHeight : JSNum) :
    (createGeoToPdfTransform proj geoBbox pageWidth pageHeight).bboxLambert =
      ((proj geoBbox.minLon geoBbox.minLat).1,
       (proj geoBbox.minLon geoBbox.minLat).2,
       (proj geoBbox.maxLon geoBbox.maxLat).1,
       (proj geoBbox.maxLon geoBbox.maxLat).2) := rfl

/-! ### expandBbox -/

/-- C6: expandBbox returns (minLon - dLon, minLat - dLat, maxLon + dLon,
maxLat + dLat) with dLon = (maxLon - minLon) * m and dLat =
(maxLat - minLat) * m; margin 0 is the identity, and a negative margin
shrinks a well-formed box with no validation or error. -/
theorem expandBbox_formula (bbox : BBox4 ℚ) (m : ℚ) :
    expandBbox bbox m =
      ⟨bbox.minLon - (bbox.maxLon - bbox.minLon) * m,
       bbox.minLat - (bbox.maxLat - bbox.minLat) * m,
       bbox.maxLon + (bbox.maxLon - bbox.minLon) * m,
       bbox.maxLat + (bbox.maxLat - bbox.minLat) * m⟩ ∧
    expandBbox bbox 0 = bbox ∧
    (m ≤ 0 → bbox.minLon ≤ bbox.maxLon → bbox.minLat ≤ bbox.maxLat →
      bboxContains bbox (expandBbox bbox m)) := by
  obtain ⟨a, b, c, d⟩ := bbox
  refine ⟨rfl, by simp [expandBbox], fun hm h1 h2 => ?_⟩
  simp only [expandBbox, bboxContains]
  refine ⟨by nlinarith, by nlinarith, by nlinarith, by nlinarith⟩

/-- Witness for C6: margin -1/2 shrinks the box [0,0,2,2]. -/
theorem expandBbox_formula_witness :
    ((-1/2 : ℚ) ≤ 0) ∧
    bboxContains ⟨0, 0, 2, 2⟩ (expandBbox ⟨0, 0, 2, 2⟩ (-1/2)) :=
  ⟨by norm_num,
   (expandBbox_formula ⟨0, 0, 2, 2⟩ (-1/2)).2.2 (by norm_num) (by norm_num)
     (by norm_num)⟩

/-- Counterexample to C7 as stated: on the inverted box [1,0,0,1] (minLon
greater than maxLon, as computeBbox itself produces on empty input) the
margins 0 and 1 are non-negative and ordered, yet the box expanded by the
larger margin does not contain the box expanded by the smaller one. -/
theorem expandBbox_monotone_counterexample :
    ((0 : ℚ) ≤ 0) ∧ ((0 : ℚ) ≤ 1) ∧
    ¬ bboxContains (expandBbox ⟨1, 0, 0, 1⟩ 1) (expandBbox ⟨1, 0, 0, 1⟩ 0) := by
  refine ⟨le_refl 0, by norm_num, ?_⟩
  norm_num [expandBbox, bboxContains]

/-- C7 amended: for every bbox whose components satisfy minLon ≤ maxLon and
minLat ≤ maxLat, and every pair of non-negative margins m1 ≤ m2, the box
expanded by m2 contains the box expanded by m1. -/
theorem expandBbox_monotone (bbox : BBox4 ℚ) (m1 m2 : ℚ)
    (hbox1 : bbox.minLon ≤ bbox.maxLon) (hbox2 : bbox.minLat ≤ bbox.maxLat)
    (_hm1 : 0 ≤ m1) (h12 : m1 ≤ m2) :
    bboxContains (expandBbox bbox m2) (expandBbox bbox m1) := by
  obtain ⟨a, b, c, d⟩ := bbox
  simp only [expandBbox, bboxContains] at *
  refine ⟨by nlinarith, by nlinarith, by nlinarith, by nlinarith⟩

/-- Witness for the amended C7 on the box [0,0,1,1] with margins 0 and 1. -/
theorem expandBbox_monotone_witness :
    ((0 : ℚ) ≤ 0) ∧ ((0 : ℚ) ≤ 1) ∧
    bboxContains (expandBbox ⟨0, 0, 1, 1⟩ 1) (expandBbox ⟨0, 0, 1, 1⟩ 0) :=
  ⟨le_refl 0, by norm_num,
   expandBbox_monotone ⟨0, 0, 1, 1⟩ 0 1 (by norm_num) (by norm_num)
     (le_refl 0) (by norm_num)⟩
